import Mathlib

/-!
Shallow embedding of `src/createConnection.ts` from the
`copilot-webchat-adapter` repository: a DirectLine-compatible connection
object wrapping the Copilot Studio streaming client.

JavaScript values are modelled as follows: machine strings are `String`,
JS numbers that the code compares and increments are `Int`, optional /
possibly-`undefined` fields are `Option`, and JS truthiness of a string
field (`undefined` and `""` are falsy) is `isFalsyStr`.  The module-level
mutable variables of `createConnection` (`sequence`, `activitySubscriber`,
`activeConversationId`, `ended`, `started`, the `BehaviorSubject` value)
become fields of `ConnState`.  External effects (Date.toISOString,
crypto.randomUUID, fetch of a blob URL) are supplied by an `Env` oracle;
the results of the asynchronous capabilities (history fetch, greeting
stream, response stream) are passed in as explicit data.  Everything the
consumer observes (status pushes and activity emissions, in order) is
recorded in the `trace` field.
-/

namespace Adapter

/-- A JS value stored in an activity's `channelData` map. -/
inductive CDVal
  | num (n : Int)
  | str (s : String)
deriving DecidableEq, Repr

/-- The open `channelData` map of an activity.  The adapter only ever reads
or writes the single key `webchat:sequence-id`, modelled as `seqId`; all
other keys are kept opaquely in `rest` (the object spread in
`emitActivity` preserves them). -/
structure ChannelData where
  seqId : Option CDVal := none
  rest : List (String × CDVal) := []
deriving DecidableEq, Repr

/-- An attachment of a message activity (`@microsoft/agents-activity`). -/
structure Attachment where
  contentType : Option String := none
  contentUrl : Option String := none
  name : Option String := none
deriving DecidableEq, Repr

/-- The parts of an `Activity` object that `createConnection.ts` touches.
`conversationId`/`conversationName` model `activity.conversation?.id` and
`activity.conversation?.name`; `fromId`/`fromName` model `activity.from`. -/
structure Activity where
  type : Option String := none
  text : Option String := none
  id : Option String := none
  conversationId : Option String := none
  conversationName : Option String := none
  fromId : Option String := none
  fromName : Option String := none
  replyToId : Option String := none
  timestamp : Option String := none
  channelData : ChannelData := {}
  attachments : Option (List Attachment) := none
deriving DecidableEq, Repr

/-- Outcome of `fetch(attachment.contentUrl)` in `processBlobAttachment`:
the fetch can reject, resolve with `!response.ok`, or succeed with a blob
carrying a MIME type and raw bytes. -/
inductive FetchResult
  | fail
  | notOk (status : Int) (statusText : String)
  | ok (mimeType : String) (bytes : List Nat)
deriving DecidableEq, Repr

/-- Oracle for the ambient effects of the adapter: `dateNow n` is the
string returned by the n-th `new Date().toISOString()` call, `newUUID n`
the n-th `crypto.randomUUID()`, and `fetchBlob url` the outcome of
`fetch(url)` on a blob URL. -/
structure Env where
  dateNow : Nat → String
  newUUID : Nat → String
  fetchBlob : String → FetchResult

/-- Construction-time options (`CreateConnectionOptions` in `types.ts`).
`hasGetHistory` records whether the optional
`getHistoryFromExternalStorage` capability was provided; its behaviour is
supplied separately as data when the connection runs. -/
structure CreateConnectionOptions where
  conversationId : Option String := none
  startConversation : Option Bool := none
  showTyping : Bool := false
  hasGetHistory : Bool := false
deriving DecidableEq, Repr

/-- JS truthiness test for an optional string: `undefined` and `""` are
falsy, every other string is truthy. -/
def isFalsyStr : Option String → Bool
  | none => true
  | some s => s == ""

/-- Character-list prefix test, used to model
`String.prototype.startsWith`. -/
def listStarts : List Char → List Char → Bool
  | _, [] => true
  | [], _ :: _ => false
  | c :: cs, d :: ds => c == d && listStarts cs ds

/-- `s.startsWith(pre)` on JS strings. -/
def strStartsWith (s pre : String) : Bool := listStarts s.data pre.data

/-- `String.prototype.trim()`: drop leading and trailing whitespace. -/
def jsTrim (s : String) : String :=
  String.mk (((s.data.dropWhile Char.isWhitespace).reverse.dropWhile Char.isWhitespace).reverse)

/-- `options.conversationId && options.conversationId.trim() !== '' ?
options.conversationId.trim() : undefined` — the normalized conversation
id computed at construction. -/
def normalizedConversationId (inp : Option String) : Option String :=
  match inp with
  | none => none
  | some s => if s ≠ "" ∧ jsTrim s ≠ "" then some (jsTrim s) else none

/-- `options.startConversation ?? !normalizedConversationId` — whether the
greeting stream should be triggered. -/
def shouldStart (opts : CreateConnectionOptions) : Bool :=
  opts.startConversation.getD (normalizedConversationId opts.conversationId).isNone

/-- One event observed by the consumer: a `connectionStatus$` push or an
`activity$` emission. -/
inductive Obs
  | status (n : Int)
  | act (a : Activity)
deriving DecidableEq, Repr

/-- The mutable state captured by one `createConnection` closure, plus the
observation trace and ghost call counters for the two upstream
capabilities. -/
structure ConnState where
  sequence : Int
  hasSubscriber : Bool
  activeConversationId : Option String
  ended : Bool
  started : Bool
  statusValue : Int
  historyCalls : Nat
  greetingCalls : Nat
  dateTicks : Nat
  uuidTicks : Nat
  trace : List Obs
deriving DecidableEq, Repr

/-- The state right after `createConnection(client, options)` returns:
counters at zero, `connectionStatus$` holding `0`, the conversation id
initialized to the normalized constructor input. -/
def initState (opts : CreateConnectionOptions) : ConnState :=
  { sequence := 0
    hasSubscriber := false
    activeConversationId := normalizedConversationId opts.conversationId
    ended := false
    started := false
    statusValue := 0
    historyCalls := 0
    greetingCalls := 0
    dateTicks := 0
    uuidTicks := 0
    trace := [] }

/-- The enrichment applied inside `emitActivity`: spread the activity,
overwrite `timestamp` with the current ISO time and set
`channelData['webchat:sequence-id']` to the current sequence value while
keeping the other channelData keys. -/
def stampActivity (env : Env) (c : ConnState) (a : Activity) : Activity :=
  { a with
    timestamp := some (env.dateNow c.dateTicks)
    channelData := { seqId := some (CDVal.num c.sequence), rest := a.channelData.rest } }

/-- `emitActivity(activity)`: first guard
`if (ended || !activitySubscriber || !activity) return`, then
`if (!activity.type) return`, otherwise push the stamped activity to the
subscriber and post-increment `sequence`. -/
def emitActivity (env : Env) (c : ConnState) (oa : Option Activity) : ConnState :=
  if c.ended || !c.hasSubscriber || oa.isNone then c
  else
    match oa with
    | none => c
    | some a =>
      if isFalsyStr a.type then c
      else
        { c with
          sequence := c.sequence + 1
          dateTicks := c.dateTicks + 1
          trace := c.trace ++ [Obs.act (stampActivity env c a)] }

/-- `emitTyping()`: when `showTyping` is set, emit a synthetic typing
activity whose `from` is the active conversation id (if truthy) or the
fixed fallback identity. -/
def emitTyping (opts : CreateConnectionOptions) (env : Env) (c : ConnState) : ConnState :=
  if !opts.showTyping then c
  else
    let fr : String :=
      if isFalsyStr c.activeConversationId then "agent" else c.activeConversationId.getD ""
    emitActivity env c (some { type := some "typing", fromId := some fr, fromName := some "Agent" })

/-- One iteration of the history-replay loop: a stored activity is pushed
to the subscriber verbatim — no stamping, no validation — guarded only by
`!ended && activitySubscriber`. -/
def emitHistory (c : ConnState) (a : Activity) : ConnState :=
  if !c.ended && c.hasSubscriber then { c with trace := c.trace ++ [Obs.act a] } else c

/-- One step of the `stored.reduce(...)` watermark:
`typeof seq === 'number' && seq > max ? seq : max`. -/
def seqFold (mx : Int) (a : Activity) : Int :=
  match a.channelData.seqId with
  | some (CDVal.num n) => if n > mx then n else mx
  | _ => mx

/-- The `stored.reduce(...)` watermark: the maximum numeric
`webchat:sequence-id` among the stored activities, starting from `-1`;
non-numeric and missing values are skipped. -/
def lastSeqOf (stored : List Activity) : Int :=
  stored.foldl seqFold (-1)

/-- The history-replay block of the `activity$` subscription: when the
capability and a normalized id are present, call the fetch (counted),
and on success emit each stored activity verbatim then advance `sequence`
past the watermark; a rejected fetch is swallowed whole (nothing emitted,
nothing advanced). -/
def historyPhase (opts : CreateConnectionOptions) (c : ConnState)
    (res : Except Unit (List Activity)) : ConnState :=
  if opts.hasGetHistory && (normalizedConversationId opts.conversationId).isSome then
    let c := { c with historyCalls := c.historyCalls + 1 }
    match res with
    | Except.error _ => c
    | Except.ok stored =>
      let c := stored.foldl emitHistory c
      let ls := lastSeqOf stored
      if ls ≥ c.sequence then { c with sequence := ls + 1 } else c
  else c

/-- One iteration of the greeting loop: capture the chunk's conversation
id when truthy (unconditionally — no first-writer guard here), delete
`replyToId`, then forward through `emitActivity`. -/
def greetingStep (env : Env) (c : ConnState) (a : Activity) : ConnState :=
  let c :=
    if !isFalsyStr a.conversationId then { c with activeConversationId := a.conversationId }
    else c
  emitActivity env c (some { a with replyToId := none })

/-- The greeting block of the `activity$` subscription: guarded by
`shouldStart && !started`; sets the `started` latch, emits the optional
typing indicator, calls `startConversationStreaming()` (counted) and runs
the greeting loop over its chunks. -/
def greetingPhase (opts : CreateConnectionOptions) (env : Env) (c : ConnState)
    (chunks : List Activity) : ConnState :=
  if shouldStart opts && !c.started then
    let c := { c with started := true }
    let c := emitTyping opts env c
    let c := { c with greetingCalls := c.greetingCalls + 1 }
    chunks.foldl (greetingStep env) c
  else c

/-- The synchronous part of an `activity$` subscription: store the
subscriber, then push `2` on `connectionStatus$` if its value is below 2. -/
def subscribeSync (c : ConnState) : ConnState :=
  let c := { c with hasSubscriber := true }
  if c.statusValue < 2 then
    { c with statusValue := 2, trace := c.trace ++ [Obs.status 2] }
  else c

/-- One full `activity$` subscription run to completion: the synchronous
part followed by the async block (history replay then greeting), with the
capability results supplied as data. -/
def subscribeRun (opts : CreateConnectionOptions) (env : Env) (c : ConnState)
    (hist : Except Unit (List Activity)) (chunks : List Activity) : ConnState :=
  greetingPhase opts env (historyPhase opts (subscribeSync c) hist) chunks

/-- One iteration of the send-response loop inside `postActivity`: capture
the conversation id only if still falsy (`!activeConversationId &&
response.conversation?.id`), then forward through `emitActivity` —
without deleting `replyToId`. -/
def responseStep (env : Env) (c : ConnState) (a : Activity) : ConnState :=
  let c :=
    if isFalsyStr c.activeConversationId && !isFalsyStr a.conversationId then
      { c with activeConversationId := a.conversationId }
    else c
  emitActivity env c (some a)

/-- The three synchronous precondition guards at the top of
`postActivity`, in source order; `Except.ok` means the call proceeds to
return the result observable without throwing. -/
def postActivityGuard (c : ConnState) (oa : Option Activity) : Except String Unit :=
  if oa.isNone then Except.error "Activity cannot be null."
  else if c.ended then Except.error "Connection has been ended."
  else if !c.hasSubscriber then Except.error "Activity subscriber is not initialized."
  else Except.ok ()

/-- `end()`: set the `ended` flag, complete `connectionStatus$`, complete
and clear the subscriber. -/
def endConnection (c : ConnState) : ConnState :=
  { c with ended := true, hasSubscriber := false }

/-- The base64 alphabet used by `Buffer.toString('base64')` / `btoa`. -/
def base64Table : List Char :=
  "ABCDEFGHIJKLMNOPQRSTUVWXYZabcdefghijklmnopqrstuvwxyz0123456789+/".toList

/-- The base64 digit for a 6-bit value. -/
def b64c (n : Nat) : Char := base64Table.getD n 'A'

/-- `arrayBufferToBase64(buffer)`: standard base64 of a byte sequence. -/
def arrayBufferToBase64 : List Nat → String
  | [] => ""
  | [b0] =>
    String.mk [b64c (b0 % 256 / 4), b64c (b0 % 4 * 16), '=', '=']
  | [b0, b1] =>
    String.mk [b64c (b0 % 256 / 4), b64c (b0 % 4 * 16 + b1 % 256 / 16), b64c (b1 % 16 * 4), '=']
  | b0 :: b1 :: b2 :: rest =>
    String.mk [b64c (b0 % 256 / 4), b64c (b0 % 4 * 16 + b1 % 256 / 16),
      b64c (b1 % 16 * 4 + b2 % 256 / 64), b64c (b2 % 64)] ++ arrayBufferToBase64 rest

/-- `processBlobAttachment(attachment)`: non-`blob:` content URLs pass
through; for a `blob:` URL the bytes are fetched and re-encoded as a
`data:` URL, and any failure (`fetch` rejecting or `!response.ok`) is
caught, returning the attachment unchanged. -/
def processBlobAttachment (env : Env) (att : Attachment) : Attachment :=
  match att.contentUrl with
  | none => att
  | some url =>
    if !strStartsWith url "blob:" then att
    else
      match env.fetchBlob url with
      | FetchResult.fail => att
      | FetchResult.notOk _ _ => att
      | FetchResult.ok mime bytes =>
        { att with contentUrl := some ("data:" ++ mime ++ ";base64," ++ arrayBufferToBase64 bytes) }

/-- `processAttachments(activity)`: non-message activities and activities
without attachments return `activity.attachments || []` untouched;
otherwise each attachment is processed independently. -/
def processAttachments (env : Env) (act : Activity) : List Attachment :=
  if act.type ≠ some "message" ∨ (act.attachments.getD []).isEmpty then
    act.attachments.getD []
  else (act.attachments.getD []).map (processBlobAttachment env)

/-- The successful async body of `postActivity` after the guards: mint an
id, build the outgoing activity (fresh conversation object
`{ id: activeConversationId || '' }`, processed attachments), echo it,
emit the optional typing indicator, then run the response loop over the
chunks of `sendActivityStreaming`. -/
def postActivitySend (opts : CreateConnectionOptions) (env : Env) (c : ConnState)
    (act : Activity) (responses : List Activity) : ConnState :=
  let uid := env.newUUID c.uuidTicks
  let c := { c with uuidTicks := c.uuidTicks + 1 }
  let outgoing : Activity :=
    { act with
      id := some uid
      conversationId := some (c.activeConversationId.getD "")
      conversationName := none
      attachments := some (processAttachments env act) }
  let c := emitActivity env c (some outgoing)
  let c := emitTyping opts env c
  responses.foldl (responseStep env) c

/-- The activities among a list of observations, in order. -/
def obsActs (l : List Obs) : List Activity :=
  l.filterMap fun o =>
    match o with
    | Obs.act a => some a
    | _ => none

/-- The numeric sequence ids carried by the activities of a trace, in
order; activities without a numeric `webchat:sequence-id` contribute
nothing. -/
def obsSeqIds (l : List Obs) : List Int :=
  l.filterMap fun o =>
    match o with
    | Obs.act a =>
      match a.channelData.seqId with
      | some (CDVal.num n) => some n
      | _ => none
    | _ => none

/-- The status pushes among a list of observations. -/
def obsStatuses (l : List Obs) : List Int :=
  l.filterMap fun o =>
    match o with
    | Obs.status n => some n
    | _ => none

/-- The numeric `webchat:sequence-id` of an activity, if any. -/
def seqNum (a : Activity) : Option Int :=
  match a.channelData.seqId with
  | some (CDVal.num n) => some n
  | _ => none

/-! ### Frame lemmas -/

lemma foldl_preserve {α : Type} {β : Type} (f : ConnState → α → ConnState) (p : ConnState → β)
    (h : ∀ s a, p (f s a) = p s) (l : List α) (s : ConnState) :
    p (List.foldl f s l) = p s := by
  induction l generalizing s with
  | nil => rfl
  | cons a l ih => rw [List.foldl_cons, ih, h]

lemma obsStatuses_append (l1 l2 : List Obs) :
    obsStatuses (l1 ++ l2) = obsStatuses l1 ++ obsStatuses l2 :=
  List.filterMap_append l1 l2 _

lemma foldl_trace_extend {α : Type} (f : ConnState → α → ConnState)
    (h : ∀ s a, ∃ tl, (f s a).trace = s.trace ++ tl ∧ obsStatuses tl = [])
    (l : List α) (s : ConnState) :
    ∃ tl, (List.foldl f s l).trace = s.trace ++ tl ∧ obsStatuses tl = [] := by
  induction l generalizing s with
  | nil => exact ⟨[], (List.append_nil _).symm, rfl⟩
  | cons a l ih =>
    obtain ⟨t1, h1, e1⟩ := h s a
    obtain ⟨t2, h2, e2⟩ := ih (f s a)
    refine ⟨t1 ++ t2, by rw [List.foldl_cons, h2, h1, List.append_assoc], ?_⟩
    rw [obsStatuses_append, e1, e2]
    rfl

lemma emitActivity_cases (env : Env) (c : ConnState) (oa : Option Activity) :
    emitActivity env c oa = c ∨
    ∃ a, oa = some a ∧ isFalsyStr a.type = false ∧ c.ended = false ∧ c.hasSubscriber = true ∧
      emitActivity env c oa =
        { c with
          sequence := c.sequence + 1
          dateTicks := c.dateTicks + 1
          trace := c.trace ++ [Obs.act (stampActivity env c a)] } := by
  cases oa with
  | none => left; simp [emitActivity]
  | some a =>
    cases hce : c.ended with
    | true => left; simp [emitActivity, hce]
    | false =>
      cases hcs : c.hasSubscriber with
      | false => left; simp [emitActivity, hce, hcs]
      | true =>
        cases ht : isFalsyStr a.type with
        | true => left; simp [emitActivity, hce, hcs, ht]
        | false =>
          right
          exact ⟨a, rfl, ht, rfl, rfl, by simp [emitActivity, hce, hcs, ht]⟩

lemma emitActivity_activeConversationId (env : Env) (c : ConnState) (oa : Option Activity) :
    (emitActivity env c oa).activeConversationId = c.activeConversationId := by
  rcases emitActivity_cases env c oa with h | ⟨a, _, _, _, _, h⟩ <;> rw [h]

lemma emitActivity_ended (env : Env) (c : ConnState) (oa : Option Activity) :
    (emitActivity env c oa).ended = c.ended := by
  rcases emitActivity_cases env c oa with h | ⟨a, _, _, _, _, h⟩ <;> rw [h]

lemma emitActivity_hasSubscriber (env : Env) (c : ConnState) (oa : Option Activity) :
    (emitActivity env c oa).hasSubscriber = c.hasSubscriber := by
  rcases emitActivity_cases env c oa with h | ⟨a, _, _, _, _, h⟩ <;> rw [h]

lemma emitActivity_started (env : Env) (c : ConnState) (oa : Option Activity) :
    (emitActivity env c oa).started = c.started := by
  rcases emitActivity_cases env c oa with h | ⟨a, _, _, _, _, h⟩ <;> rw [h]

lemma emitActivity_statusValue (env : Env) (c : ConnState) (oa : Option Activity) :
    (emitActivity env c oa).statusValue = c.statusValue := by
  rcases emitActivity_cases env c oa with h | ⟨a, _, _, _, _, h⟩ <;> rw [h]

lemma emitActivity_historyCalls (env : Env) (c : ConnState) (oa : Option Activity) :
    (emitActivity env c oa).historyCalls = c.historyCalls := by
  rcases emitActivity_cases env c oa with h | ⟨a, _, _, _, _, h⟩ <;> rw [h]

lemma emitActivity_greetingCalls (env : Env) (c : ConnState) (oa : Option Activity) :
    (emitActivity env c oa).greetingCalls = c.greetingCalls := by
  rcases emitActivity_cases env c oa with h | ⟨a, _, _, _, _, h⟩ <;> rw [h]

lemma emitActivity_trace_extend (env : Env) (c : ConnState) (oa : Option Activity) :
    ∃ tl, (emitActivity env c oa).trace = c.trace ++ tl ∧ obsStatuses tl = [] := by
  rcases emitActivity_cases env c oa with h | ⟨a, _, _, _, _, h⟩
  · exact ⟨[], by rw [h, List.append_nil], rfl⟩
  · exact ⟨[Obs.act (stampActivity env c a)], by rw [h], rfl⟩

lemma emitTyping_activeConversationId (opts : CreateConnectionOptions) (env : Env)
    (c : ConnState) : (emitTyping opts env c).activeConversationId = c.activeConversationId := by
  unfold emitTyping
  split_ifs <;> first
    | rfl
    | exact emitActivity_activeConversationId env c _

lemma emitTyping_ended (opts : CreateConnectionOptions) (env : Env) (c : ConnState) :
    (emitTyping opts env c).ended = c.ended := by
  unfold emitTyping
  split_ifs <;> first
    | rfl
    | exact emitActivity_ended env c _

lemma emitTyping_hasSubscriber (opts : CreateConnectionOptions) (env : Env) (c : ConnState) :
    (emitTyping opts env c).hasSubscriber = c.hasSubscriber := by
  unfold emitTyping
  split_ifs <;> first
    | rfl
    | exact emitActivity_hasSubscriber env c _

lemma emitTyping_started (opts : CreateConnectionOptions) (env : Env) (c : ConnState) :
    (emitTyping opts env c).started = c.started := by
  unfold emitTyping
  split_ifs <;> first
    | rfl
    | exact emitActivity_started env c _

lemma emitTyping_statusValue (opts : CreateConnectionOptions) (env : Env) (c : ConnState) :
    (emitTyping opts env c).statusValue = c.statusValue := by
  unfold emitTyping
  split_ifs <;> first
    | rfl
    | exact emitActivity_statusValue env c _

lemma emitTyping_historyCalls (opts : CreateConnectionOptions) (env : Env) (c : ConnState) :
    (emitTyping opts env c).historyCalls = c.historyCalls := by
  unfold emitTyping
  split_ifs <;> first
    | rfl
    | exact emitActivity_historyCalls env c _

lemma emitTyping_greetingCalls (opts : CreateConnectionOptions) (env : Env) (c : ConnState) :
    (emitTyping opts env c).greetingCalls = c.greetingCalls := by
  unfold emitTyping
  split_ifs <;> first
    | rfl
    | exact emitActivity_greetingCalls env c _

lemma emitTyping_trace_extend (opts : CreateConnectionOptions) (env : Env) (c : ConnState) :
    ∃ tl, (emitTyping opts env c).trace = c.trace ++ tl ∧ obsStatuses tl = [] := by
  unfold emitTyping
  split_ifs <;> first
    | exact ⟨[], (List.append_nil _).symm, rfl⟩
    | exact emitActivity_trace_extend env c _

lemma emitHistory_cases (c : ConnState) (a : Activity) :
    emitHistory c a = c ∨
      (c.ended = false ∧ c.hasSubscriber = true ∧
        emitHistory c a = { c with trace := c.trace ++ [Obs.act a] }) := by
  cases hce : c.ended with
  | true => left; simp [emitHistory, hce]
  | false =>
    cases hcs : c.hasSubscriber with
    | false => left; simp [emitHistory, hce, hcs]
    | true => right; exact ⟨rfl, rfl, by simp [emitHistory, hce, hcs]⟩

lemma emitHistory_sequence (c : ConnState) (a : Activity) :
    (emitHistory c a).sequence = c.sequence := by
  rcases emitHistory_cases c a with h | ⟨_, _, h⟩ <;> rw [h]

lemma emitHistory_activeConversationId (c : ConnState) (a : Activity) :
    (emitHistory c a).activeConversationId = c.activeConversationId := by
  rcases emitHistory_cases c a with h | ⟨_, _, h⟩ <;> rw [h]

lemma emitHistory_ended (c : ConnState) (a : Activity) :
    (emitHistory c a).ended = c.ended := by
  rcases emitHistory_cases c a with h | ⟨_, _, h⟩ <;> rw [h]

lemma emitHistory_hasSubscriber (c : ConnState) (a : Activity) :
    (emitHistory c a).hasSubscriber = c.hasSubscriber := by
  rcases emitHistory_cases c a with h | ⟨_, _, h⟩ <;> rw [h]

lemma emitHistory_started (c : ConnState) (a : Activity) :
    (emitHistory c a).started = c.started := by
  rcases emitHistory_cases c a with h | ⟨_, _, h⟩ <;> rw [h]

lemma emitHistory_statusValue (c : ConnState) (a : Activity) :
    (emitHistory c a).statusValue = c.statusValue := by
  rcases emitHistory_cases c a with h | ⟨_, _, h⟩ <;> rw [h]

lemma emitHistory_historyCalls (c : ConnState) (a : Activity) :
    (emitHistory c a).historyCalls = c.historyCalls := by
  rcases emitHistory_cases c a with h | ⟨_, _, h⟩ <;> rw [h]

lemma emitHistory_greetingCalls (c : ConnState) (a : Activity) :
    (emitHistory c a).greetingCalls = c.greetingCalls := by
  rcases emitHistory_cases c a with h | ⟨_, _, h⟩ <;> rw [h]

lemma emitHistory_trace_extend (c : ConnState) (a : Activity) :
    ∃ tl, (emitHistory c a).trace = c.trace ++ tl ∧ obsStatuses tl = [] := by
  rcases emitHistory_cases c a with h | ⟨_, _, h⟩
  · exact ⟨[], by rw [h, List.append_nil], rfl⟩
  · exact ⟨[Obs.act a], by rw [h], rfl⟩

lemma greetingStep_ended (env : Env) (c : ConnState) (a : Activity) :
    (greetingStep env c a).ended = c.ended := by
  unfold greetingStep
  split_ifs <;> rw [emitActivity_ended]

lemma greetingStep_hasSubscriber (env : Env) (c : ConnState) (a : Activity) :
    (greetingStep env c a).hasSubscriber = c.hasSubscriber := by
  unfold greetingStep
  split_ifs <;> rw [emitActivity_hasSubscriber]

lemma greetingStep_started (env : Env) (c : ConnState) (a : Activity) :
    (greetingStep env c a).started = c.started := by
  unfold greetingStep
  split_ifs <;> rw [emitActivity_started]

lemma greetingStep_statusValue (env : Env) (c : ConnState) (a : Activity) :
    (greetingStep env c a).statusValue = c.statusValue := by
  unfold greetingStep
  split_ifs <;> rw [emitActivity_statusValue]

lemma greetingStep_historyCalls (env : Env) (c : ConnState) (a : Activity) :
    (greetingStep env c a).historyCalls = c.historyCalls := by
  unfold greetingStep
  split_ifs <;> rw [emitActivity_historyCalls]

lemma greetingStep_greetingCalls (env : Env) (c : ConnState) (a : Activity) :
    (greetingStep env c a).greetingCalls = c.greetingCalls := by
  unfold greetingStep
  split_ifs <;> rw [emitActivity_greetingCalls]

lemma greetingStep_trace_extend (env : Env) (c : ConnState) (a : Activity) :
    ∃ tl, (greetingStep env c a).trace = c.trace ++ tl ∧ obsStatuses tl = [] := by
  unfold greetingStep
  split_ifs <;> exact emitActivity_trace_extend env _ _

lemma responseStep_ended (env : Env) (c : ConnState) (a : Activity) :
    (responseStep env c a).ended = c.ended := by
  unfold responseStep
  split_ifs <;> rw [emitActivity_ended]

lemma responseStep_hasSubscriber (env : Env) (c : ConnState) (a : Activity) :
    (responseStep env c a).hasSubscriber = c.hasSubscriber := by
  unfold responseStep
  split_ifs <;> rw [emitActivity_hasSubscriber]

lemma responseStep_started (env : Env) (c : ConnState) (a : Activity) :
    (responseStep env c a).started = c.started := by
  unfold responseStep
  split_ifs <;> rw [emitActivity_started]

lemma responseStep_statusValue (env : Env) (c : ConnState) (a : Activity) :
    (responseStep env c a).statusValue = c.statusValue := by
  unfold responseStep
  split_ifs <;> rw [emitActivity_statusValue]

lemma responseStep_historyCalls (env : Env) (c : ConnState) (a : Activity) :
    (responseStep env c a).historyCalls = c.historyCalls := by
  unfold responseStep
  split_ifs <;> rw [emitActivity_historyCalls]

lemma responseStep_greetingCalls (env : Env) (c : ConnState) (a : Activity) :
    (responseStep env c a).greetingCalls = c.greetingCalls := by
  unfold responseStep
  split_ifs <;> rw [emitActivity_greetingCalls]

lemma responseStep_trace_extend (env : Env) (c : ConnState) (a : Activity) :
    ∃ tl, (responseStep env c a).trace = c.trace ++ tl ∧ obsStatuses tl = [] := by
  unfold responseStep
  split_ifs <;> exact emitActivity_trace_extend env _ _

lemma responseStep_preserves_activeConversationId (env : Env) (c : ConnState) (a : Activity)
    (h : isFalsyStr c.activeConversationId = false) :
    (responseStep env c a).activeConversationId = c.activeConversationId := by
  unfold responseStep
  rw [emitActivity_activeConversationId]
  simp [h]

lemma greetingStep_sets_activeConversationId (env : Env) (c : ConnState) (a : Activity)
    (h : isFalsyStr a.conversationId = false) :
    (greetingStep env c a).activeConversationId = a.conversationId := by
  unfold greetingStep
  rw [emitActivity_activeConversationId]
  simp [h]

lemma subscribeSync_hasSubscriber (c : ConnState) : (subscribeSync c).hasSubscriber = true := by
  unfold subscribeSync
  dsimp only
  split_ifs <;> rfl

lemma subscribeSync_activeConversationId (c : ConnState) :
    (subscribeSync c).activeConversationId = c.activeConversationId := by
  unfold subscribeSync
  dsimp only
  split_ifs <;> rfl

lemma subscribeSync_sequence (c : ConnState) : (subscribeSync c).sequence = c.sequence := by
  unfold subscribeSync
  dsimp only
  split_ifs <;> rfl

lemma subscribeSync_ended (c : ConnState) : (subscribeSync c).ended = c.ended := by
  unfold subscribeSync
  dsimp only
  split_ifs <;> rfl

lemma subscribeSync_started (c : ConnState) : (subscribeSync c).started = c.started := by
  unfold subscribeSync
  dsimp only
  split_ifs <;> rfl

lemma subscribeSync_historyCalls (c : ConnState) :
    (subscribeSync c).historyCalls = c.historyCalls := by
  unfold subscribeSync
  dsimp only
  split_ifs <;> rfl

lemma subscribeSync_greetingCalls (c : ConnState) :
    (subscribeSync c).greetingCalls = c.greetingCalls := by
  unfold subscribeSync
  dsimp only
  split_ifs <;> rfl

lemma subscribeSync_of_lt (c : ConnState) (h : c.statusValue < 2) :
    subscribeSync c =
      { c with hasSubscriber := true, statusValue := 2, trace := c.trace ++ [Obs.status 2] } := by
  unfold subscribeSync
  dsimp only
  rw [if_pos h]

lemma subscribeSync_of_ge (c : ConnState) (h : ¬ c.statusValue < 2) :
    subscribeSync c = { c with hasSubscriber := true } := by
  unfold subscribeSync
  dsimp only
  rw [if_neg h]

lemma historyPhase_activeConversationId (opts : CreateConnectionOptions) (c : ConnState)
    (res : Except Unit (List Activity)) :
    (historyPhase opts c res).activeConversationId = c.activeConversationId := by
  unfold historyPhase
  split_ifs
  · cases res with
    | error e => rfl
    | ok stored =>
      dsimp only
      split_ifs <;>
        exact foldl_preserve emitHistory (fun s => s.activeConversationId)
          emitHistory_activeConversationId stored _
  · rfl

lemma historyPhase_ended (opts : CreateConnectionOptions) (c : ConnState)
    (res : Except Unit (List Activity)) :
    (historyPhase opts c res).ended = c.ended := by
  unfold historyPhase
  split_ifs
  · cases res with
    | error e => rfl
    | ok stored =>
      dsimp only
      split_ifs <;> exact foldl_preserve emitHistory (fun s => s.ended) emitHistory_ended stored _
  · rfl

lemma historyPhase_hasSubscriber (opts : CreateConnectionOptions) (c : ConnState)
    (res : Except Unit (List Activity)) :
    (historyPhase opts c res).hasSubscriber = c.hasSubscriber := by
  unfold historyPhase
  split_ifs
  · cases res with
    | error e => rfl
    | ok stored =>
      dsimp only
      split_ifs <;>
        exact foldl_preserve emitHistory (fun s => s.hasSubscriber)
          emitHistory_hasSubscriber stored _
  · rfl

lemma historyPhase_started (opts : CreateConnectionOptions) (c : ConnState)
    (res : Except Unit (List Activity)) :
    (historyPhase opts c res).started = c.started := by
  unfold historyPhase
  split_ifs
  · cases res with
    | error e => rfl
    | ok stored =>
      dsimp only
      split_ifs <;>
        exact foldl_preserve emitHistory (fun s => s.started) emitHistory_started stored _
  · rfl

lemma historyPhase_statusValue (opts : CreateConnectionOptions) (c : ConnState)
    (res : Except Unit (List Activity)) :
    (historyPhase opts c res).statusValue = c.statusValue := by
  unfold historyPhase
  split_ifs
  · cases res with
    | error e => rfl
    | ok stored =>
      dsimp only
      split_ifs <;>
        exact foldl_preserve emitHistory (fun s => s.statusValue) emitHistory_statusValue stored _
  · rfl

lemma historyPhase_greetingCalls (opts : CreateConnectionOptions) (c : ConnState)
    (res : Except Unit (List Activity)) :
    (historyPhase opts c res).greetingCalls = c.greetingCalls := by
  unfold historyPhase
  split_ifs
  · cases res with
    | error e => rfl
    | ok stored =>
      dsimp only
      split_ifs <;>
        exact foldl_preserve emitHistory (fun s => s.greetingCalls)
          emitHistory_greetingCalls stored _
  · rfl

lemma historyPhase_historyCalls (opts : CreateConnectionOptions) (c : ConnState)
    (res : Except Unit (List Activity)) :
    (historyPhase opts c res).historyCalls =
      c.historyCalls +
        (if (opts.hasGetHistory && (normalizedConversationId opts.conversationId).isSome) = true
          then 1 else 0) := by
  unfold historyPhase
  split_ifs with h
  · cases res with
    | error e => rfl
    | ok stored =>
      dsimp only
      split_ifs <;>
        exact foldl_preserve emitHistory (fun s => s.historyCalls)
          emitHistory_historyCalls stored _
  · simp

lemma historyPhase_trace_extend (opts : CreateConnectionOptions) (c : ConnState)
    (res : Except Unit (List Activity)) :
    ∃ tl, (historyPhase opts c res).trace = c.trace ++ tl ∧ obsStatuses tl = [] := by
  unfold historyPhase
  split_ifs
  · cases res with
    | error e => exact ⟨[], (List.append_nil _).symm, rfl⟩
    | ok stored =>
      dsimp only
      obtain ⟨tl, h1, h2⟩ :=
        foldl_trace_extend emitHistory emitHistory_trace_extend stored
          { c with historyCalls := c.historyCalls + 1 }
      split_ifs <;> exact ⟨tl, h1, h2⟩
  · exact ⟨[], (List.append_nil _).symm, rfl⟩

lemma greetingPhase_not_taken (opts : CreateConnectionOptions) (env : Env) (c : ConnState)
    (chunks : List Activity) (h : ¬ (shouldStart opts && !c.started) = true) :
    greetingPhase opts env c chunks = c := by
  unfold greetingPhase
  rw [if_neg h]

lemma greetingPhase_historyCalls (opts : CreateConnectionOptions) (env : Env) (c : ConnState)
    (chunks : List Activity) :
    (greetingPhase opts env c chunks).historyCalls = c.historyCalls := by
  unfold greetingPhase
  split_ifs
  · dsimp only
    exact (foldl_preserve (greetingStep env) (fun s => s.historyCalls)
      (greetingStep_historyCalls env) chunks _).trans (emitTyping_historyCalls opts env _)
  · rfl

lemma greetingPhase_statusValue (opts : CreateConnectionOptions) (env : Env) (c : ConnState)
    (chunks : List Activity) :
    (greetingPhase opts env c chunks).statusValue = c.statusValue := by
  unfold greetingPhase
  split_ifs
  · dsimp only
    exact (foldl_preserve (greetingStep env) (fun s => s.statusValue)
      (greetingStep_statusValue env) chunks _).trans (emitTyping_statusValue opts env _)
  · rfl

lemma greetingPhase_ended (opts : CreateConnectionOptions) (env : Env) (c : ConnState)
    (chunks : List Activity) :
    (greetingPhase opts env c chunks).ended = c.ended := by
  unfold greetingPhase
  split_ifs
  · dsimp only
    exact (foldl_preserve (greetingStep env) (fun s => s.ended)
      (greetingStep_ended env) chunks _).trans (emitTyping_ended opts env _)
  · rfl

lemma greetingPhase_hasSubscriber (opts : CreateConnectionOptions) (env : Env) (c : ConnState)
    (chunks : List Activity) :
    (greetingPhase opts env c chunks).hasSubscriber = c.hasSubscriber := by
  unfold greetingPhase
  split_ifs
  · dsimp only
    exact (foldl_preserve (greetingStep env) (fun s => s.hasSubscriber)
      (greetingStep_hasSubscriber env) chunks _).trans (emitTyping_hasSubscriber opts env _)
  · rfl

lemma greetingPhase_taken (opts : CreateConnectionOptions) (env : Env) (c : ConnState)
    (chunks : List Activity) (h : (shouldStart opts && !c.started) = true) :
    (greetingPhase opts env c chunks).greetingCalls = c.greetingCalls + 1 ∧
      (greetingPhase opts env c chunks).started = true := by
  unfold greetingPhase
  rw [if_pos h]
  dsimp only
  constructor
  · exact (foldl_preserve (greetingStep env) (fun s => s.greetingCalls)
      (greetingStep_greetingCalls env) chunks _).trans
      (congrArg (· + 1) (emitTyping_greetingCalls opts env _))
  · exact (foldl_preserve (greetingStep env) (fun s => s.started)
      (greetingStep_started env) chunks _).trans (emitTyping_started opts env _)

lemma greetingPhase_trace_extend (opts : CreateConnectionOptions) (env : Env) (c : ConnState)
    (chunks : List Activity) :
    ∃ tl, (greetingPhase opts env c chunks).trace = c.trace ++ tl ∧ obsStatuses tl = [] := by
  unfold greetingPhase
  split_ifs
  · dsimp only
    obtain ⟨t1, h1, e1⟩ := emitTyping_trace_extend opts env { c with started := true }
    obtain ⟨t2, h2, e2⟩ :=
      foldl_trace_extend (greetingStep env) (greetingStep_trace_extend env) chunks
        { emitTyping opts env { c with started := true } with
          greetingCalls := (emitTyping opts env { c with started := true }).greetingCalls + 1 }
    refine ⟨t1 ++ t2, ?_, ?_⟩
    · rw [h2]
      show (emitTyping opts env { c with started := true }).trace ++ t2 = c.trace ++ (t1 ++ t2)
      rw [h1]
      show c.trace ++ t1 ++ t2 = c.trace ++ (t1 ++ t2)
      rw [List.append_assoc]
    · rw [obsStatuses_append, e1, e2]
      rfl
  · exact ⟨[], (List.append_nil _).symm, rfl⟩

lemma subscribeRun_statusValue (opts : CreateConnectionOptions) (env : Env) (c : ConnState)
    (hist : Except Unit (List Activity)) (chunks : List Activity) :
    (subscribeRun opts env c hist chunks).statusValue = (subscribeSync c).statusValue := by
  unfold subscribeRun
  rw [greetingPhase_statusValue, historyPhase_statusValue]

lemma subscribeRun_trace_extend (opts : CreateConnectionOptions) (env : Env) (c : ConnState)
    (hist : Except Unit (List Activity)) (chunks : List Activity) :
    ∃ tl, (subscribeRun opts env c hist chunks).trace = (subscribeSync c).trace ++ tl ∧
      obsStatuses tl = [] := by
  unfold subscribeRun
  obtain ⟨t1, h1, e1⟩ := historyPhase_trace_extend opts (subscribeSync c) hist
  obtain ⟨t2, h2, e2⟩ := greetingPhase_trace_extend opts env (historyPhase opts (subscribeSync c) hist) chunks
  refine ⟨t1 ++ t2, ?_, ?_⟩
  · rw [h2, h1, List.append_assoc]
  · rw [obsStatuses_append, e1, e2]
    rfl

/-! ### Concrete data used by witnesses and counterexamples -/

/-- A fixed effect oracle: constant clock, constant uuid, every blob fetch
rejects except `blob:b`, which resolves with a non-ok response. -/
def envW : Env :=
  { dateNow := fun _ => "2026-01-01T00:00:00.000Z"
    newUUID := fun _ => "id-1"
    fetchBlob := fun url =>
      if url = "blob:b" then FetchResult.notOk 404 "Not Found" else FetchResult.fail }

/-- A live connection state: freshly constructed with no options, then
subscribed (subscriber present, not ended). -/
def cLive : ConnState := subscribeSync (initState {})

/-- The live state after `end()` was called. -/
def cEnded : ConnState := endConnection cLive

/-- A plain message activity. -/
def actW : Activity := { type := some "message", text := some "hello" }

/-- An attachment with an ordinary (non-blob) content URL. -/
def attHttps : Attachment := { contentUrl := some "https://x/y.png" }

/-- A message activity carrying one non-blob attachment. -/
def actMsgW : Activity := { type := some "message", attachments := some [attHttps] }

/-! ### Claims -/

/-- C7: `postActivity` fails synchronously with "Activity cannot be null."
when the activity argument is absent; with "Connection has been ended."
when the connection has ended — whatever the rest of the state, in
particular regardless of how many activities were sent before, and always
after `end()` — and with "Activity subscriber is not initialized." when no
subscriber is attached; when none of the preconditions is violated it does
not throw synchronously. -/
theorem C7_postActivity_guards (c : ConnState) (oa : Option Activity) :
    (oa = none → postActivityGuard c oa = Except.error "Activity cannot be null.") ∧
    (oa ≠ none → c.ended = true →
      postActivityGuard c oa = Except.error "Connection has been ended.") ∧
    (oa ≠ none → c.ended = false → c.hasSubscriber = false →
      postActivityGuard c oa = Except.error "Activity subscriber is not initialized.") ∧
    (oa ≠ none → c.ended = false → c.hasSubscriber = true →
      postActivityGuard c oa = Except.ok ()) ∧
    (oa ≠ none →
      postActivityGuard (endConnection c) oa = Except.error "Connection has been ended.") := by
  refine ⟨?_, ?_, ?_, ?_, ?_⟩
  · intro h
    subst h
    rfl
  · intro h1 h2
    obtain ⟨a, rfl⟩ := Option.ne_none_iff_exists'.mp h1
    simp [postActivityGuard, h2]
  · intro h1 h2 h3
    obtain ⟨a, rfl⟩ := Option.ne_none_iff_exists'.mp h1
    simp [postActivityGuard, h2, h3]
  · intro h1 h2 h3
    obtain ⟨a, rfl⟩ := Option.ne_none_iff_exists'.mp h1
    simp [postActivityGuard, h2, h3]
  · intro h1
    obtain ⟨a, rfl⟩ := Option.ne_none_iff_exists'.mp h1
    simp [postActivityGuard, endConnection]

/-- Witness for C7 at concrete inputs: a fresh subscribed connection, the
same connection after `end()`, and an unsubscribed connection. -/
theorem C7_postActivity_guards_witness :
    postActivityGuard cLive none = Except.error "Activity cannot be null." ∧
    postActivityGuard cEnded (some actW) = Except.error "Connection has been ended." ∧
    postActivityGuard (initState {}) (some actW) =
      Except.error "Activity subscriber is not initialized." ∧
    postActivityGuard cLive (some actW) = Except.ok () ∧
    postActivityGuard (endConnection cLive) (some actW) =
      Except.error "Connection has been ended." :=
  ⟨(C7_postActivity_guards cLive none).1 rfl,
   (C7_postActivity_guards cEnded (some actW)).2.1 (Option.some_ne_none actW) rfl,
   (C7_postActivity_guards (initState {}) (some actW)).2.2.1 (Option.some_ne_none actW) rfl rfl,
   (C7_postActivity_guards cLive (some actW)).2.2.2.1 (Option.some_ne_none actW) rfl rfl,
   (C7_postActivity_guards cLive (some actW)).2.2.2.2 (Option.some_ne_none actW)⟩

/-- C8: an empty or whitespace-only constructor `conversationId` is
normalized away exactly like an absent one and the greeting then triggers
by default; a non-whitespace id is stored trimmed; the greeting decision
equals the explicit `startConversation` flag when supplied and otherwise
the negation of identifier presence. -/
theorem C8_conversationId_normalization (s : String) (b : Bool) (oc : Option String) :
    (jsTrim s = "" →
      normalizedConversationId (some s) = normalizedConversationId none ∧
        shouldStart { conversationId := some s } = true) ∧
    (jsTrim s ≠ "" → normalizedConversationId (some s) = some (jsTrim s)) ∧
    shouldStart { conversationId := oc, startConversation := some b } = b ∧
    shouldStart { conversationId := oc } = (normalizedConversationId oc).isNone := by
  refine ⟨?_, ?_, ?_, ?_⟩
  · intro h
    constructor
    · simp [normalizedConversationId, h]
    · simp [shouldStart, normalizedConversationId, h]
  · intro h
    by_cases hs : s = ""
    · subst hs
      exact absurd (by decide) h
    · simp [normalizedConversationId, hs, h]
  · simp [shouldStart]
  · simp [shouldStart]

/-- Witness for C8 at concrete inputs: a whitespace-only id, a padded id,
an explicit flag with a resumable id, and the two defaults. -/
theorem C8_conversationId_normalization_witness :
    (normalizedConversationId (some "   ") = normalizedConversationId none ∧
      shouldStart { conversationId := some "   " } = true) ∧
    normalizedConversationId (some "  conv-123  ") = some "conv-123" ∧
    shouldStart { conversationId := some "conv-123", startConversation := some true } = true ∧
    shouldStart { conversationId := some "conv-123" } = false :=
  ⟨(C8_conversationId_normalization "   " true none).1 (by decide),
   ((C8_conversationId_normalization "  conv-123  " true none).2.1 (by decide)).trans
     (by decide),
   (C8_conversationId_normalization "x" true (some "conv-123")).2.2.1,
   ((C8_conversationId_normalization "x" true (some "conv-123")).2.2.2).trans (by decide)⟩

/-- C9: attachment normalization never fails a send: non-message
activities and attachment-free activities pass through with their
attachments untouched; a message's attachments are each processed
independently; an attachment without a `blob:` content URL is returned
unchanged, and an attachment whose blob fetch rejects or returns a non-ok
response is returned unchanged. -/
theorem C9_attachments_never_fail (env : Env) (act : Activity) (att : Attachment) :
    (act.type ≠ some "message" → processAttachments env act = act.attachments.getD []) ∧
    ((act.attachments.getD []).isEmpty = true →
      processAttachments env act = act.attachments.getD []) ∧
    (act.type = some "message" →
      processAttachments env act = (act.attachments.getD []).map (processBlobAttachment env)) ∧
    (att.contentUrl = none → processBlobAttachment env att = att) ∧
    (∀ url, att.contentUrl = some url → strStartsWith url "blob:" = false →
      processBlobAttachment env att = att) ∧
    (∀ url, att.contentUrl = some url → env.fetchBlob url = FetchResult.fail →
      processBlobAttachment env att = att) ∧
    (∀ url st stx, att.contentUrl = some url → env.fetchBlob url = FetchResult.notOk st stx →
      processBlobAttachment env att = att) := by
  refine ⟨?_, ?_, ?_, ?_, ?_, ?_, ?_⟩
  · intro h
    unfold processAttachments
    rw [if_pos (Or.inl h)]
  · intro h
    unfold processAttachments
    rw [if_pos (Or.inr h)]
  · intro h
    unfold processAttachments
    by_cases he : (act.attachments.getD []).isEmpty = true
    · rw [if_pos (Or.inr he), List.isEmpty_iff.mp he]
      rfl
    · rw [if_neg]
      rintro (hc | hc)
      · exact hc h
      · exact he hc
  · intro h
    simp [processBlobAttachment, h]
  · intro url hu hb
    simp [processBlobAttachment, hu, hb]
  · intro url hu hf
    by_cases hb : strStartsWith url "blob:" = false
    · simp [processBlobAttachment, hu, hb]
    · have hb2 : strStartsWith url "blob:" = true := by
        revert hb
        cases strStartsWith url "blob:" <;> simp
      simp [processBlobAttachment, hu, hb2, hf]
  · intro url st stx hu hf
    by_cases hb : strStartsWith url "blob:" = false
    · simp [processBlobAttachment, hu, hb]
    · have hb2 : strStartsWith url "blob:" = true := by
        revert hb
        cases strStartsWith url "blob:" <;> simp
      simp [processBlobAttachment, hu, hb2, hf]

/-- Witness for C9 at concrete inputs: a typing activity, a message with
an `https:` attachment, a message whose blob fetch rejects, and one whose
blob fetch returns 404. -/
theorem C9_attachments_never_fail_witness :
    processAttachments envW { type := some "typing" } = [] ∧
    processAttachments envW actMsgW = [attHttps] ∧
    processBlobAttachment envW { contentUrl := some "blob:a" } =
      { contentUrl := some "blob:a" } ∧
    processBlobAttachment envW { contentUrl := some "blob:b" } =
      { contentUrl := some "blob:b" } ∧
    processBlobAttachment envW { contentUrl := none } = { contentUrl := none } :=
  ⟨(C9_attachments_never_fail envW { type := some "typing" } {}).1 (by decide),
   by
    rw [(C9_attachments_never_fail envW actMsgW {}).2.2.1 rfl]
    show List.map (processBlobAttachment envW) [attHttps] = [attHttps]
    rw [List.map_cons, List.map_nil,
      (C9_attachments_never_fail envW {} attHttps).2.2.2.2.1 "https://x/y.png" rfl (by decide)],
   (C9_attachments_never_fail envW {} { contentUrl := some "blob:a" }).2.2.2.2.2.1
     "blob:a" rfl (by decide),
   (C9_attachments_never_fail envW {} { contentUrl := some "blob:b" }).2.2.2.2.2.2
     "blob:b" 404 "Not Found" rfl (by decide),
   (C9_attachments_never_fail envW {} { contentUrl := none }).2.2.2.1 rfl⟩

/-- The constructor options of the C1 counterexample: resume an existing
conversation but explicitly force the greeting. -/
def optsC1 : CreateConnectionOptions :=
  { conversationId := some "abc", startConversation := some true }

/-- An upstream chunk carrying a conversation reference different from the
one the connection already holds, plus a `replyToId`. -/
def chunkXyz : Activity :=
  { type := some "message", conversationId := some "xyz", replyToId := some "r1" }

/-- A connection resumed with id "abc" and subscribed. -/
def cResumed : ConnState := subscribeSync (initState { conversationId := some "abc" })

/-- C1 counterexample: the connection is constructed with the non-empty
conversation id "abc" (and the greeting forced on), yet after one greeting
chunk whose conversation reference is "xyz" the stored identifier has
changed to "xyz" — the greeting path overwrites a previously non-empty
identifier, so the identifier is not first-writer-wins across all paths. -/
theorem C1_counterexample :
    (initState optsC1).activeConversationId = some "abc" ∧
    isFalsyStr (initState optsC1).activeConversationId = false ∧
    (subscribeRun optsC1 envW (initState optsC1) (Except.error ()) [chunkXyz]).activeConversationId
      = some "xyz" := by
  refine ⟨by decide, by decide, by decide⟩

/-- C1 (amended): the constructor and the send-response path are
first-writer-wins — a send-response chunk's conversation reference is
adopted only while the identifier is still absent or empty — and no other
operation (history replay, subscription, stamping, typing synthesis,
`end()`) touches the identifier; but each greeting-stream chunk carrying a
truthy conversation reference overwrites the identifier unconditionally. -/
theorem C1_conversationId_first_writer (env : Env) (opts : CreateConnectionOptions)
    (c : ConnState) (a : Activity) (h : Except Unit (List Activity)) :
    (isFalsyStr c.activeConversationId = false →
      (responseStep env c a).activeConversationId = c.activeConversationId) ∧
    (isFalsyStr a.conversationId = false →
      (greetingStep env c a).activeConversationId = a.conversationId) ∧
    (historyPhase opts c h).activeConversationId = c.activeConversationId ∧
    (subscribeSync c).activeConversationId = c.activeConversationId ∧
    (emitActivity env c (some a)).activeConversationId = c.activeConversationId ∧
    (emitTyping opts env c).activeConversationId = c.activeConversationId ∧
    (endConnection c).activeConversationId = c.activeConversationId :=
  ⟨responseStep_preserves_activeConversationId env c a,
   greetingStep_sets_activeConversationId env c a,
   historyPhase_activeConversationId opts c h,
   subscribeSync_activeConversationId c,
   emitActivity_activeConversationId env c (some a),
   emitTyping_activeConversationId opts env c,
   rfl⟩

/-- Witness for C1 (amended): a resumed connection keeps "abc" through a
send-response chunk carrying "xyz", while a greeting chunk carrying "xyz"
overwrites it. -/
theorem C1_conversationId_first_writer_witness :
    (responseStep envW cResumed chunkXyz).activeConversationId =
      cResumed.activeConversationId ∧
    (greetingStep envW cResumed chunkXyz).activeConversationId = chunkXyz.conversationId :=
  ⟨(C1_conversationId_first_writer envW {} cResumed chunkXyz (Except.error ())).1 (by decide),
   (C1_conversationId_first_writer envW {} cResumed chunkXyz (Except.error ())).2.1 (by decide)⟩

/-- C4 counterexample: a send-response chunk carrying `replyToId = "r1"`
is forwarded to the subscriber with its `replyToId` intact — the response
loop does not strip the field, so not every forwarded upstream activity
has `replyToId` removed. -/
theorem C4_counterexample :
    (obsActs (responseStep envW cLive chunkXyz).trace).map Activity.replyToId = [some "r1"] := by
  decide

lemma emit_keeps_replyToId (env : Env) (cpre c : ConnState) (hpre : cpre.trace = c.trace)
    (a2 : Activity) :
    (emitActivity env cpre (some a2)).trace = c.trace ∨
    ∃ b, (emitActivity env cpre (some a2)).trace = c.trace ++ [Obs.act b] ∧
      b.replyToId = a2.replyToId := by
  rcases emitActivity_cases env cpre (some a2) with h | ⟨b, hb, _, _, _, h⟩
  · left
    rw [h, hpre]
  · obtain rfl : a2 = b := Option.some_inj.mp hb
    right
    exact ⟨stampActivity env cpre a2, by rw [h, hpre], rfl⟩

/-- C4 (amended): `replyToId` is removed from every activity forwarded by
the greeting loop, but an activity forwarded by the send-response loop
keeps its incoming `replyToId` unchanged. -/
theorem C4_replyToId_stripping (env : Env) (c : ConnState) (a : Activity) :
    ((greetingStep env c a).trace = c.trace ∨
      ∃ b, (greetingStep env c a).trace = c.trace ++ [Obs.act b] ∧ b.replyToId = none) ∧
    ((responseStep env c a).trace = c.trace ∨
      ∃ b, (responseStep env c a).trace = c.trace ++ [Obs.act b] ∧
        b.replyToId = a.replyToId) := by
  constructor
  · have hpre : (if !isFalsyStr a.conversationId
        then { c with activeConversationId := a.conversationId } else c).trace = c.trace := by
      split_ifs <;> rfl
    exact emit_keeps_replyToId env _ c hpre { a with replyToId := none }
  · have hpre : (if isFalsyStr c.activeConversationId && !isFalsyStr a.conversationId
        then { c with activeConversationId := a.conversationId } else c).trace = c.trace := by
      split_ifs <;> rfl
    exact emit_keeps_replyToId env _ c hpre a

/-- The constructor options of the C2/C3/C6 counterexamples: resume a
conversation with the history capability present. -/
def optsHist : CreateConnectionOptions := { conversationId := some "abc", hasGetHistory := true }

/-- A stored history activity as the consumer saved it (already enriched). -/
def histStored : Activity :=
  { type := some "message", text := some "old", timestamp := some "2025-01-01T00:00:00.000Z",
    channelData := { seqId := some (CDVal.num 3) } }

/-- C2 counterexample: on a resumed connection with a history capability,
the consumer-visible trace of the first subscription is the status-2 push
*followed by* the replayed history activity — the connected status is
announced synchronously at subscribe time, before history replay, so the
consumer does not observe history before the connected status. -/
theorem C2_counterexample :
    (subscribeRun optsHist envW (initState optsHist) (Except.ok [histStored]) []).trace =
      [Obs.status 2, Obs.act histStored] := by
  decide

/-- C2 (amended): the status channel transitions from 0 to 2 exactly once
per connection lifetime, synchronously on the first subscription and
before history replay runs: the status-2 push heads the first
subscription's trace, it is the only status push of that run, and a second
subscription pushes no further status. -/
theorem C2_connected_status_once (opts : CreateConnectionOptions) (env : Env)
    (h1 h2 : Except Unit (List Activity)) (g1 g2 : List Activity) :
    (subscribeRun opts env (initState opts) h1 g1).trace.head? = some (Obs.status 2) ∧
    obsStatuses (subscribeRun opts env (initState opts) h1 g1).trace = [2] ∧
    obsStatuses
        (subscribeRun opts env (subscribeRun opts env (initState opts) h1 g1) h2 g2).trace =
      [2] := by
  have hs0 := subscribeSync_of_lt (initState opts) (by show (0 : Int) < 2; decide)
  obtain ⟨t1, ht1, he1⟩ := subscribeRun_trace_extend opts env (initState opts) h1 g1
  have htr1 : (subscribeRun opts env (initState opts) h1 g1).trace = Obs.status 2 :: t1 := by
    rw [ht1, hs0]
    rfl
  have hobs1 : obsStatuses (subscribeRun opts env (initState opts) h1 g1).trace = [2] := by
    rw [htr1]
    show obsStatuses ([Obs.status 2] ++ t1) = [2]
    rw [obsStatuses_append, he1]
    rfl
  refine ⟨by rw [htr1]; rfl, hobs1, ?_⟩
  have hsv : (subscribeRun opts env (initState opts) h1 g1).statusValue = 2 := by
    rw [subscribeRun_statusValue, hs0]
  have hs1 := subscribeSync_of_ge (subscribeRun opts env (initState opts) h1 g1)
    (by rw [hsv]; decide)
  obtain ⟨t2, ht2, he2⟩ :=
    subscribeRun_trace_extend opts env (subscribeRun opts env (initState opts) h1 g1) h2 g2
  rw [ht2, hs1]
  show obsStatuses ((subscribeRun opts env (initState opts) h1 g1).trace ++ t2) = [2]
  rw [obsStatuses_append, he2, hobs1]
  rfl

/-- C3 counterexample: on a resumed connection with a history capability,
two subscriptions to the activity channel invoke the history-fetch
capability twice — the "started" latch does not guard history replay, so
the history fetch is not called at most once per connection lifetime. -/
theorem C3_counterexample :
    (subscribeRun optsHist envW
        (subscribeRun optsHist envW (initState optsHist) (Except.ok []) [])
        (Except.ok []) []).historyCalls = 2 := by
  decide

lemma subscribeRun_historyCalls (opts : CreateConnectionOptions) (env : Env) (c : ConnState)
    (h : Except Unit (List Activity)) (g : List Activity) :
    (subscribeRun opts env c h g).historyCalls =
      c.historyCalls +
        (if (opts.hasGetHistory && (normalizedConversationId opts.conversationId).isSome) = true
          then 1 else 0) := by
  unfold subscribeRun
  rw [greetingPhase_historyCalls, historyPhase_historyCalls, subscribeSync_historyCalls]

lemma subscribeRun_greeting_inv (opts : CreateConnectionOptions) (env : Env) (c : ConnState)
    (h : Except Unit (List Activity)) (g : List Activity)
    (inv : c.greetingCalls ≤ 1 ∧ (c.started = false → c.greetingCalls = 0)) :
    (subscribeRun opts env c h g).greetingCalls ≤ 1 ∧
      ((subscribeRun opts env c h g).started = false →
        (subscribeRun opts env c h g).greetingCalls = 0) := by
  unfold subscribeRun
  have hgc1 : (historyPhase opts (subscribeSync c) h).greetingCalls = c.greetingCalls := by
    rw [historyPhase_greetingCalls, subscribeSync_greetingCalls]
  have hst1 : (historyPhase opts (subscribeSync c) h).started = c.started := by
    rw [historyPhase_started, subscribeSync_started]
  by_cases hg : (shouldStart opts && !(historyPhase opts (subscribeSync c) h).started) = true
  · obtain ⟨hA, hB⟩ := greetingPhase_taken opts env (historyPhase opts (subscribeSync c) h) g hg
    have hstf : c.started = false := by
      have h2 := hg
      rw [Bool.and_eq_true] at h2
      have h3 := h2.2
      rw [hst1] at h3
      simpa using h3
    have hc0 : c.greetingCalls = 0 := inv.2 hstf
    constructor
    · rw [hA, hgc1, hc0]
    · intro hh
      rw [hB] at hh
      cases hh
  · rw [greetingPhase_not_taken opts env _ g hg]
    refine ⟨?_, ?_⟩
    · rw [hgc1]
      exact inv.1
    · intro hh
      rw [hgc1]
      rw [hst1] at hh
      exact inv.2 hh

/-- Fold a list of independent `activity$` subscription runs, each with its
own history-fetch result and greeting chunks. -/
def runsFold (opts : CreateConnectionOptions) (env : Env) (c : ConnState)
    (runs : List (Except Unit (List Activity) × List Activity)) : ConnState :=
  runs.foldl (fun s pr => subscribeRun opts env s pr.1 pr.2) c

lemma runsFold_greeting_inv (opts : CreateConnectionOptions) (env : Env)
    (runs : List (Except Unit (List Activity) × List Activity)) :
    ∀ c, (c.greetingCalls ≤ 1 ∧ (c.started = false → c.greetingCalls = 0)) →
      (runsFold opts env c runs).greetingCalls ≤ 1 := by
  induction runs with
  | nil => exact fun c inv => inv.1
  | cons p rs ih =>
    intro c inv
    exact ih _ (subscribeRun_greeting_inv opts env c p.1 p.2 inv)

lemma runsFold_historyCalls (opts : CreateConnectionOptions) (env : Env)
    (runs : List (Except Unit (List Activity) × List Activity))
    (hcond : (opts.hasGetHistory && (normalizedConversationId opts.conversationId).isSome)
      = true) :
    ∀ c, (runsFold opts env c runs).historyCalls = c.historyCalls + runs.length := by
  induction runs with
  | nil => intro c; rfl
  | cons p rs ih =>
    intro c
    show (runsFold opts env (subscribeRun opts env c p.1 p.2) rs).historyCalls = _
    rw [ih, subscribeRun_historyCalls, if_pos hcond]
    simp only [List.length_cons]
    omega

/-- C3 (amended): across any number of `activity$` subscriptions of one
connection, the upstream greeting-stream capability is invoked at most
once (guarded by the "started" latch); but the history-fetch capability,
when provided together with a normalized conversation id, is invoked once
per subscription — it is not latched, so it is not called at most once. -/
theorem C3_greeting_latch (opts : CreateConnectionOptions) (env : Env)
    (runs : List (Except Unit (List Activity) × List Activity)) :
    (runsFold opts env (initState opts) runs).greetingCalls ≤ 1 ∧
    ((opts.hasGetHistory && (normalizedConversationId opts.conversationId).isSome) = true →
      (runsFold opts env (initState opts) runs).historyCalls = runs.length) := by
  constructor
  · exact runsFold_greeting_inv opts env runs (initState opts) ⟨Nat.zero_le _, fun _ => rfl⟩
  · intro hcond
    rw [runsFold_historyCalls opts env runs hcond (initState opts)]
    exact Nat.zero_add _

/-- Witness for C3 (amended): two subscriptions of the resumed connection
yield at most one greeting call and exactly two history fetches. -/
theorem C3_greeting_latch_witness :
    (runsFold optsHist envW (initState optsHist)
        [(Except.ok [], []), (Except.ok [], [])]).greetingCalls ≤ 1 ∧
    (runsFold optsHist envW (initState optsHist)
        [(Except.ok [], []), (Except.ok [], [])]).historyCalls = 2 :=
  ⟨(C3_greeting_latch optsHist envW [(Except.ok [], []), (Except.ok [], [])]).1,
   (C3_greeting_latch optsHist envW [(Except.ok [], []), (Except.ok [], [])]).2 (by decide)⟩

lemma emitActivity_emits (env : Env) (c : ConnState) (a : Activity)
    (h1 : c.ended = false) (h2 : c.hasSubscriber = true) (h3 : isFalsyStr a.type = false) :
    emitActivity env c (some a) =
      { c with
        sequence := c.sequence + 1
        dateTicks := c.dateTicks + 1
        trace := c.trace ++ [Obs.act (stampActivity env c a)] } := by
  simp [emitActivity, h1, h2, h3]

lemma seqFold_ge (mx : Int) (a : Activity) : mx ≤ seqFold mx a := by
  unfold seqFold
  split
  · split_ifs <;> omega
  · omega

lemma seqNum_some_iff (a : Activity) (n : Int) :
    seqNum a = some n ↔ a.channelData.seqId = some (CDVal.num n) := by
  rcases h : a.channelData.seqId with _ | v
  · simp [seqNum, h]
  · cases v with
    | num k => simp [seqNum, h]
    | str s => simp [seqNum, h]

lemma seqFold_ub (mx : Int) (a : Activity) (n : Int) (h : seqNum a = some n) :
    n ≤ seqFold mx a := by
  rw [seqNum_some_iff] at h
  simp only [seqFold, h]
  split_ifs <;> omega

lemma foldl_seqFold_ge (l : List Activity) : ∀ m : Int, m ≤ List.foldl seqFold m l := by
  induction l with
  | nil => exact fun m => le_refl m
  | cons a t ih => exact fun m => le_trans (seqFold_ge m a) (ih (seqFold m a))

lemma foldl_seqFold_ub (l : List Activity) : ∀ (m : Int) (a : Activity), a ∈ l →
    ∀ n, seqNum a = some n → n ≤ List.foldl seqFold m l := by
  induction l with
  | nil =>
    intro m a ha
    cases ha
  | cons b t ih =>
    intro m a ha n hn
    rcases List.mem_cons.mp ha with rfl | hmem
    · exact le_trans (seqFold_ub m a n hn) (foldl_seqFold_ge t (seqFold m a))
    · exact ih (seqFold m b) a hmem n hn

lemma foldl_seqFold_mem (l : List Activity) : ∀ m : Int,
    List.foldl seqFold m l = m ∨ ∃ a ∈ l, seqNum a = some (List.foldl seqFold m l) := by
  induction l with
  | nil =>
    intro m
    left
    rfl
  | cons b t ih =>
    intro m
    rcases ih (seqFold m b) with he | ⟨a, ha, hn⟩
    · have hfb : List.foldl seqFold m (b :: t) = seqFold m b := he
      rcases hsq : b.channelData.seqId with _ | v
      · left
        rw [hfb]
        simp [seqFold, hsq]
      · cases v with
        | num k =>
          by_cases hk : k > m
          · right
            refine ⟨b, List.mem_cons_self b t, ?_⟩
            have hv : seqFold m b = k := by simp [seqFold, hsq, hk]
            rw [hfb, hv, seqNum_some_iff, hsq]
          · left
            rw [hfb]
            simp [seqFold, hsq, hk]
        | str s =>
          left
          rw [hfb]
          simp [seqFold, hsq]
    · right
      exact ⟨a, List.mem_cons_of_mem b ha, hn⟩

/-- `M` is the maximum numeric stored sequence id of `stored`: some stored
activity carries it and no stored activity carries a larger one. -/
def IsMaxSeq (stored : List Activity) (M : Int) : Prop :=
  (∃ a ∈ stored, seqNum a = some M) ∧ ∀ a ∈ stored, ∀ n, seqNum a = some n → n ≤ M

lemma lastSeqOf_of_max (stored : List Activity) (M : Int) (hM : 0 ≤ M)
    (h : IsMaxSeq stored M) : lastSeqOf stored = M := by
  obtain ⟨⟨a, ha, han⟩, hub⟩ := h
  have h1 : M ≤ List.foldl seqFold (-1) stored := foldl_seqFold_ub stored (-1) a ha M han
  rcases foldl_seqFold_mem stored (-1) with he | ⟨b, hb, hbn⟩
  · unfold lastSeqOf
    omega
  · have h2 := hub b hb (List.foldl seqFold (-1) stored) hbn
    unfold lastSeqOf
    omega

lemma historyPhase_ok_sequence (opts : CreateConnectionOptions) (c : ConnState)
    (stored : List Activity)
    (hc : (opts.hasGetHistory && (normalizedConversationId opts.conversationId).isSome) = true) :
    (historyPhase opts c (Except.ok stored)).sequence =
      if lastSeqOf stored ≥ c.sequence then lastSeqOf stored + 1 else c.sequence := by
  unfold historyPhase
  rw [if_pos hc]
  dsimp only
  have hF : (List.foldl emitHistory { c with historyCalls := c.historyCalls + 1 } stored).sequence
      = c.sequence :=
    foldl_preserve emitHistory (fun s => s.sequence) emitHistory_sequence stored _
  rw [hF]
  split_ifs with h2
  · rfl
  · exact hF

/-- The connection state right after the first subscription's history
replay completed successfully: subscribe, then run the history phase on
the fetched `stored` list. -/
def afterReplay (opts : CreateConnectionOptions) (stored : List Activity) : ConnState :=
  historyPhase opts (subscribeSync (initState opts)) (Except.ok stored)

/-- C5: when history replay emits stored activities whose maximum numeric
stored sequence id is `M ≥ 0`, the sequence counter is advanced to `M + 1`
and the first live activity stamped afterwards carries sequence id `M + 1`
in its channelData; stored activities without a numeric sequence id do not
affect the watermark, and when no stored activity has one the counter
stays at 0. -/
theorem C5_sequence_watermark (opts : CreateConnectionOptions) (env : Env)
    (stored : List Activity) (M : Int)
    (hcap : opts.hasGetHistory = true)
    (hid : (normalizedConversationId opts.conversationId).isSome = true) :
    (0 ≤ M → IsMaxSeq stored M →
      (afterReplay opts stored).sequence = M + 1 ∧
      ∀ a : Activity, isFalsyStr a.type = false →
        ∃ b, emitActivity env (afterReplay opts stored) (some a) =
            { afterReplay opts stored with
              sequence := (afterReplay opts stored).sequence + 1
              dateTicks := (afterReplay opts stored).dateTicks + 1
              trace := (afterReplay opts stored).trace ++ [Obs.act b] } ∧
          b.channelData.seqId = some (CDVal.num (M + 1))) ∧
    ((∀ a ∈ stored, seqNum a = none) → (afterReplay opts stored).sequence = 0) := by
  have hcond :
      (opts.hasGetHistory && (normalizedConversationId opts.conversationId).isSome) = true := by
    rw [hcap, hid]
    rfl
  have hseq0 : (subscribeSync (initState opts)).sequence = 0 := by
    rw [subscribeSync_sequence]
    rfl
  have hseqEq : (afterReplay opts stored).sequence =
      if lastSeqOf stored ≥ (subscribeSync (initState opts)).sequence
        then lastSeqOf stored + 1 else (subscribeSync (initState opts)).sequence :=
    historyPhase_ok_sequence opts (subscribeSync (initState opts)) stored hcond
  constructor
  · intro hM hmax
    have hls : lastSeqOf stored = M := lastSeqOf_of_max stored M hM hmax
    have hs : (afterReplay opts stored).sequence = M + 1 := by
      rw [hseqEq, hseq0, hls, if_pos (by omega)]
    refine ⟨hs, ?_⟩
    intro a ha
    have hend : (afterReplay opts stored).ended = false := by
      unfold afterReplay
      rw [historyPhase_ended, subscribeSync_ended]
      rfl
    have hsub : (afterReplay opts stored).hasSubscriber = true := by
      unfold afterReplay
      rw [historyPhase_hasSubscriber, subscribeSync_hasSubscriber]
    refine ⟨stampActivity env (afterReplay opts stored) a,
      emitActivity_emits env _ a hend hsub ha, ?_⟩
    show some (CDVal.num (afterReplay opts stored).sequence) = some (CDVal.num (M + 1))
    rw [hs]
  · intro hnone
    have hls : lastSeqOf stored = -1 := by
      rcases foldl_seqFold_mem stored (-1) with he | ⟨b, hb, hbn⟩
      · exact he
      · rw [hnone b hb] at hbn
        cases hbn
    rw [hseqEq, hseq0, hls, if_neg (by omega)]

/-- Stored history for the C5 witness: max numeric sequence id 5, one
activity without a numeric id. -/
def storedW : List Activity :=
  [{ type := some "message", channelData := { seqId := some (CDVal.num 4) } },
   { type := some "message", channelData := { seqId := some (CDVal.num 5) } },
   { type := some "message" }]

/-- Stored history with no numeric sequence ids at all. -/
def storedNoSeq : List Activity := [{ type := some "message" }, { type := some "event" }]

/-- Witness for C5: replaying history with max stored id 5 leaves the
counter at 6 and the next live emission carries sequence id 6; replaying
history without numeric ids leaves the counter at 0. -/
theorem C5_sequence_watermark_witness :
    (afterReplay optsHist storedW).sequence = 6 ∧
    (∃ b, emitActivity envW (afterReplay optsHist storedW) (some actW) =
        { afterReplay optsHist storedW with
          sequence := (afterReplay optsHist storedW).sequence + 1
          dateTicks := (afterReplay optsHist storedW).dateTicks + 1
          trace := (afterReplay optsHist storedW).trace ++ [Obs.act b] } ∧
      b.channelData.seqId = some (CDVal.num 6)) ∧
    (afterReplay optsHist storedNoSeq).sequence = 0 := by
  obtain ⟨h1, h2⟩ :=
    (C5_sequence_watermark optsHist envW storedW 5 rfl (by decide)).1 (by decide)
      (by unfold IsMaxSeq; decide)
  exact ⟨h1, h2 actW (by decide),
    (C5_sequence_watermark optsHist envW storedNoSeq 5 rfl (by decide)).2 (by decide)⟩

/-- A run of consecutive live emissions: each activity is passed through
`emitActivity` in order (this is how the greeting loop, the echo, the
typing synthesizer and the response loop all deliver activities). -/
def liveRun (env : Env) (c : ConnState) (acts : List Activity) : ConnState :=
  acts.foldl (fun s a => emitActivity env s (some a)) c

lemma liveRun_cons (env : Env) (c : ConnState) (a : Activity) (l : List Activity) :
    liveRun env c (a :: l) = liveRun env (emitActivity env c (some a)) l := rfl

lemma liveRun_spec (env : Env) (acts : List Activity) : ∀ c : ConnState, ∃ tl,
    (liveRun env c acts).trace = c.trace ++ tl ∧
    c.sequence ≤ (liveRun env c acts).sequence ∧
    (∀ b ∈ obsActs tl, b.timestamp.isSome = true ∧
      ∃ n : Int, b.channelData.seqId = some (CDVal.num n)) ∧
    (∀ n ∈ obsSeqIds tl, c.sequence ≤ n) ∧
    (obsSeqIds tl).Pairwise (· < ·) := by
  induction acts with
  | nil =>
    intro c
    refine ⟨[], (List.append_nil _).symm, le_refl _, ?_, ?_, List.Pairwise.nil⟩
    · intro b hb
      exact absurd hb (List.not_mem_nil b)
    · intro n hn
      exact absurd hn (List.not_mem_nil n)
  | cons a rest ih =>
    intro c
    rcases emitActivity_cases env c (some a) with h | ⟨a2, ha2, hft, hend, hsub, h⟩
    · obtain ⟨tl, h1, h2, h3, h4, h5⟩ := ih (emitActivity env c (some a))
      rw [h] at h1 h2 h4
      rw [liveRun_cons, h]
      exact ⟨tl, h1, h2, h3, h4, h5⟩
    · obtain rfl : a = a2 := Option.some_inj.mp ha2
      obtain ⟨tl, h1, h2, h3, h4, h5⟩ := ih (emitActivity env c (some a))
      refine ⟨Obs.act (stampActivity env c a) :: tl, ?_, ?_, ?_, ?_, ?_⟩
      · rw [liveRun_cons, h1, h]
        show (c.trace ++ [Obs.act (stampActivity env c a)]) ++ tl =
          c.trace ++ (Obs.act (stampActivity env c a) :: tl)
        rw [List.append_assoc]
        rfl
      · rw [liveRun_cons, h]
        have h2b := h2
        rw [h] at h2b
        dsimp only at h2b
        omega
      · intro b hb
        have heq : obsActs (Obs.act (stampActivity env c a) :: tl) =
            stampActivity env c a :: obsActs tl := rfl
        rw [heq] at hb
        rcases List.mem_cons.mp hb with rfl | hmem
        · exact ⟨rfl, ⟨c.sequence, rfl⟩⟩
        · exact h3 b hmem
      · intro n hn
        have heq : obsSeqIds (Obs.act (stampActivity env c a) :: tl) =
            c.sequence :: obsSeqIds tl := rfl
        rw [heq] at hn
        rcases List.mem_cons.mp hn with rfl | hmem
        · exact le_refl _
        · have h4b := h4 n hmem
          rw [h] at h4b
          dsimp only at h4b
          omega
      · have heq : obsSeqIds (Obs.act (stampActivity env c a) :: tl) =
            c.sequence :: obsSeqIds tl := rfl
        rw [heq]
        refine List.Pairwise.cons ?_ h5
        intro n hn
        have h4b := h4 n hn
        rw [h] at h4b
        dsimp only at h4b
        omega

/-- A stored history activity with no timestamp and no sequence id. -/
def bareStored : Activity := { type := some "message", text := some "old" }

/-- C6 counterexample: replaying a stored activity that carries neither a
timestamp nor a sequence id emits it verbatim — so not every activity
emitted within a connection carries a timestamp and an integer sequence id
in its channelData. -/
theorem C6_counterexample :
    obsActs (subscribeRun optsHist envW (initState optsHist)
        (Except.ok [bareStored]) []).trace = [bareStored] ∧
    bareStored.timestamp = none ∧ seqNum bareStored = none :=
  ⟨by decide, rfl, rfl⟩

/-- C6 (amended): every activity emitted through the live stamping path
(`emitActivity`) carries a timestamp and an integer sequence id in its
channelData, and over any run of consecutive live emissions those
sequence ids are strictly increasing with no duplicates; history-replayed
activities bypass this path and may lack both. -/
theorem C6_live_sequencing (env : Env) (c : ConnState) (acts : List Activity) :
    ∃ tl, (liveRun env c acts).trace = c.trace ++ tl ∧
      (∀ b ∈ obsActs tl, b.timestamp.isSome = true ∧
        ∃ n : Int, b.channelData.seqId = some (CDVal.num n)) ∧
      (obsSeqIds tl).Pairwise (· < ·) := by
  obtain ⟨tl, h1, _, h3, _, h5⟩ := liveRun_spec env acts c
  exact ⟨tl, h1, h3, h5⟩

/-- C10: history replay bypasses the stamping path's validation — a stored
activity is forwarded verbatim whenever the connection is not ended and a
subscriber is attached, even if it lacks a type, timestamp or sequence id
— whereas a live activity with a falsy type is silently discarded, and
both paths are held back by the ended flag or a missing subscriber. -/
theorem C10_history_bypasses_validation (env : Env) (c : ConnState) (a : Activity)
    (oa : Option Activity) :
    (c.ended = false → c.hasSubscriber = true →
      emitHistory c a = { c with trace := c.trace ++ [Obs.act a] }) ∧
    (isFalsyStr a.type = true → emitActivity env c (some a) = c) ∧
    (c.ended = true → emitActivity env c oa = c ∧ emitHistory c a = c) ∧
    (c.hasSubscriber = false → emitActivity env c oa = c ∧ emitHistory c a = c) := by
  refine ⟨?_, ?_, ?_, ?_⟩
  · intro h1 h2
    simp [emitHistory, h1, h2]
  · intro ht
    rcases emitActivity_cases env c (some a) with h | ⟨a2, ha2, hft, _, _, _⟩
    · exact h
    · obtain rfl : a = a2 := Option.some_inj.mp ha2
      simp [ht] at hft
  · intro h
    refine ⟨?_, ?_⟩
    · simp [emitActivity, h]
    · simp [emitHistory, h]
  · intro h
    refine ⟨?_, ?_⟩
    · simp [emitActivity, h]
    · simp [emitHistory, h]

/-- Witness for C10: a completely bare stored activity (no type, no
timestamp, no sequence id) is emitted verbatim on a live connection; a
bare live activity is discarded; after `end()` both paths are inert. -/
theorem C10_history_bypasses_validation_witness :
    emitHistory cLive {} = { cLive with trace := cLive.trace ++ [Obs.act {}] } ∧
    emitActivity envW cLive (some {}) = cLive ∧
    (emitActivity envW cEnded (some actW) = cEnded ∧ emitHistory cEnded actW = cEnded) ∧
    (emitActivity envW (initState {}) (some actW) = initState {} ∧
      emitHistory (initState {}) actW = initState {}) :=
  ⟨(C10_history_bypasses_validation envW cLive {} (some {})).1 rfl rfl,
   (C10_history_bypasses_validation envW cLive {} (some {})).2.1 rfl,
   (C10_history_bypasses_validation envW cEnded actW (some actW)).2.2.1 rfl,
   (C10_history_bypasses_validation envW (initState {}) actW (some actW)).2.2.2 rfl⟩

end Adapter
